import Mathlib

/-
Verification of the Answer Service of the macbook-touchar repository
(app/azure_service.py together with app/config.py).

Python strings are modelled as lists of characters (`Str`), so Python
slicing `s[:n]` is `List.take n`, `len(s)` is `List.length`, and string
concatenation is `List.append`.  Fallible calls are modelled by explicit
outcome types: what the mocked environment makes each lower-level call do
(return a value or raise) is a parameter, and the embedded functions
compute what the Python control flow produces for that outcome.
-/

set_option maxRecDepth 4000

namespace AzureService

/-- Python str as a list of Unicode code points. -/
abbrev Str := List Char

/-- config.py line 24: `MAX_ANSWER_LENGTH: int = 200`. -/
def MAX_ANSWER_LENGTH : Nat := 200

/-- config.py line 34: `MAX_TOKENS: int = 1000`. -/
def MAX_TOKENS : Nat := 1000

/-- A chat message dictionary with `role` and `content` keys. -/
structure Message where
  role : Str
  content : Str

/-- azure_service.py lines 295-303: the fixed system prompt built by
`get_coding_answer` (a triple-quoted Python literal, kept verbatim with its
embedded newlines and indentation). -/
def system_prompt : Str :=
  ("You are an expert coding interview assistant. Provide concise, \n        practical answers to coding interview questions. Focus on:\n        1. Key concepts and approaches\n        2. Time and space complexity\n        3. Code examples when helpful\n        4. Common pitfalls to avoid\n        \n        Keep answers brief and suitable for display on a small screen (max 200 characters).\n        If the answer is longer, provide the most essential information first.").toList

/-- azure_service.py line 309: the f-string
`f"Answer this coding interview question: {question}"` is this literal
followed by the question. -/
def question_preamble : Str := "Answer this coding interview question: ".toList

/-- azure_service.py lines 305-311: the message list `get_coding_answer`
passes to `generate_completion`. -/
def messagesFor (question : Str) : List Message :=
  [ { role := "system".toList, content := system_prompt },
    { role := "user".toList, content := question_preamble ++ question } ]

/-- Outcome of one lower-level call in a mocked run: it either returns a
value (for a completion call, the `content` field, which in Python may be a
string or `None`) or raises a generic exception. -/
inductive CallResult where
  | returns (content : Option Str)
  | raises

/-- Environment under which the body of `generate_completion`
(azure_service.py lines 218-282) runs:
* `llmRaises`  — `cls.get_llm(...)` raises (configuration `ValueError` or
  connectivity `RuntimeError`);
* `llmFalsy`   — `get_llm` returns a falsy client (the `if not client`
  guard at lines 239-241);
* `langchain inv fb` — the client has an `invoke` attribute; `inv` is the
  outcome of `client.invoke(messages)` / `response.content` (lines
  244-249), and `fb` the outcome of the raw-client fallback completion
  (lines 250-267), consulted only when `inv` raises;
* `raw cr`     — the client is a raw client; `cr` is the outcome of
  `client.chat.completions.create(...)` /
  `response.choices[0].message.content` (lines 268-278). -/
inductive CompletionEnv where
  | llmRaises
  | llmFalsy
  | langchain (inv : CallResult) (fb : CallResult)
  | raw (cr : CallResult)

/-- azure_service.py lines 218-282, `generate_completion`: the whole body
sits inside `try ... except Exception: return None`, so the function is
total into `Option Str`; every escaping exception becomes `None`
(lines 280-282), as does a falsy client (line 241). -/
def generate_completion (messages : List Message) (env : CompletionEnv) : Option Str :=
  match env with
  | CompletionEnv.llmRaises => none
  | CompletionEnv.llmFalsy => none
  | CompletionEnv.langchain inv fb =>
    match inv with
    | CallResult.returns content => content
    | CallResult.raises =>
      match fb with
      | CallResult.returns content => content
      | CallResult.raises => none
  | CompletionEnv.raw cr =>
    match cr with
    | CallResult.returns content => content
    | CallResult.raises => none

/-- azure_service.py line 326: the fallback answer string. -/
def unableMsg : Str := "Unable to generate answer. Please try again.".toList

/-- azure_service.py line 330: the generic failure string. -/
def connectErrMsg : Str := "Error: Unable to connect to AI service.".toList

/-- Behaviour of the `await cls.generate_completion(...)` call made by
`get_coding_answer` (azure_service.py lines 314-318): either the real body
runs under some environment, or the call itself raises (as the repository
test mocks it with `side_effect = Exception(...)`). -/
inductive GenCall where
  | runs (env : CompletionEnv)
  | raises

/-- azure_service.py lines 284-330, `get_coding_answer`.  Python's
`if response:` is false both for `None` and for the empty string, so both
fall to the `unableMsg` branch; a response longer than
`settings.MAX_ANSWER_LENGTH` is truncated to `MAX_ANSWER_LENGTH - 3`
characters with `"..."` appended (line 323); an exception from the
`generate_completion` call is caught at lines 328-330. -/
def get_coding_answer (question : Str) (call : GenCall) : Str :=
  match call with
  | GenCall.raises => connectErrMsg
  | GenCall.runs env =>
    match generate_completion (messagesFor question) env with
    | some response =>
      if response.isEmpty then unableMsg
      else if MAX_ANSWER_LENGTH < response.length then
        response.take (MAX_ANSWER_LENGTH - 3) ++ "...".toList
      else response
    | none => unableMsg

example :
    get_coding_answer [] (GenCall.runs (CompletionEnv.raw (CallResult.returns (some ("N/A".toList)))))
      = "N/A".toList := by rfl

example : get_coding_answer [] GenCall.raises = connectErrMsg := rfl

example :
    (get_coding_answer [] (GenCall.runs (CompletionEnv.raw (CallResult.returns (some (List.replicate 201 'A')))))).length
      = 200 := by rfl

/-- config.py lines 14-19: the Azure fields of the `Settings` object that
`azure_service.py` reads through the module-level `settings` instance.
Their values come from the environment (default empty string), so they are
parameters of the model. -/
structure AzureConfig where
  AZURE_OPENAI_API_KEY : Str
  AZURE_OPENAI_ENDPOINT : Str
  AZURE_OPENAI_DEPLOYMENT_NAME : Str
  AZURE_OPENAI_API_VERSION : Str

/-- azure_service.py lines 71-76: the `required_vars` dict, in insertion
order. -/
def required_vars (c : AzureConfig) : List (Str × Str) :=
  [ ("AZURE_OPENAI_API_KEY".toList, c.AZURE_OPENAI_API_KEY),
    ("AZURE_OPENAI_ENDPOINT".toList, c.AZURE_OPENAI_ENDPOINT),
    ("AZURE_OPENAI_DEPLOYMENT_NAME".toList, c.AZURE_OPENAI_DEPLOYMENT_NAME),
    ("AZURE_OPENAI_API_VERSION".toList, c.AZURE_OPENAI_API_VERSION) ]

/-- azure_service.py line 78: `[k for k, v in required_vars.items() if not v]`
(a string is falsy exactly when it is empty). -/
def missing_vars (c : AzureConfig) : List Str :=
  ((required_vars c).filter (fun kv => kv.2.isEmpty)).map (fun kv => kv.1)

/-- The literal `"https://"` opening the endpoint regex. -/
def httpsLit : Str := "https://".toList

/-- The literal `".openai.azure.com"` branch of the regex suffix. -/
def dotOpenai : Str := ".openai.azure.com".toList

/-- The literal `".cognitive.azure.com"` branch of the regex suffix. -/
def dotCognitive : Str := ".cognitive.azure.com".toList

/-- Greedy `[^/]+` matching for the regex at azure_service.py lines 99-102:
given the text after `"https://"`, find the largest `k` (starting from the
length of the initial slash-free run and counting down, as a greedy engine
backtracks) such that the text after the first `k` characters starts with
`".openai.azure.com"` or `".cognitive.azure.com"`. -/
def findHostLen (rest : Str) : Nat → Option Nat
  | 0 => none
  | k + 1 =>
    if dotOpenai.isPrefixOf (rest.drop (k + 1)) || dotCognitive.isPrefixOf (rest.drop (k + 1)) then
      some (k + 1)
    else findHostLen rest k

/-- azure_service.py lines 98-105: `re.match` of
`(https://[^/]+\.(?:openai|cognitive)\.azure\.com)(?:/.*)?` against the
endpoint, returning `group(1)` on success.  `re.match` anchors at the start
only; the trailing `(?:/.*)?` is optional and cannot affect success. -/
def matchBaseEndpoint (ep : Str) : Option Str :=
  if httpsLit.isPrefixOf ep then
    let rest := ep.drop httpsLit.length
    match findHostLen rest ((rest.takeWhile (fun c => c ≠ '/')).length) with
    | some k =>
      let suffix := if dotOpenai.isPrefixOf (rest.drop k) then dotOpenai else dotCognitive
      some (httpsLit ++ rest.take k ++ suffix)
    | none => none
  else none

/-- Index of the first occurrence of `sub` in `s`, if any. -/
def indexOfSub (sub : Str) : Str → Option Nat
  | [] => if sub.isEmpty then some 0 else none
  | c :: cs =>
    if sub.isPrefixOf (c :: cs) then some 0
    else (indexOfSub sub cs).map (fun i => i + 1)

/-- The literal `"/deployments/"` used by the fallback split. -/
def deploymentsLit : Str := "/deployments/".toList

/-- Python `endpoint.split("/deployments/")[0]`: everything before the
first occurrence of the separator (the whole string when absent). -/
def splitHead (sub s : Str) : Str :=
  match indexOfSub sub s with
  | some i => s.take i
  | none => s

/-- Python `endpoint.rstrip("/")`: drop every trailing slash. -/
def rstripSlash (s : Str) : Str :=
  (s.reverse.dropWhile (fun c => c = '/')).reverse

/-- azure_service.py lines 95-117: the endpoint clean-up in `get_llm` —
regex extraction of the base endpoint, else split before
`"/deployments/"` when present, else strip a trailing slash. -/
def cleanEndpoint (ep : Str) : Str :=
  match matchBaseEndpoint ep with
  | some base => base
  | none =>
    if (indexOfSub deploymentsLit ep).isSome then splitHead deploymentsLit ep
    else if ['/'].isSuffixOf ep then rstripSlash ep
    else ep

example : cleanEndpoint ("https://test.openai.azure.com/".toList) = "https://test.openai.azure.com".toList := by rfl
example : cleanEndpoint ("https://test.openai.azure.com/deployments/test".toList) = "https://test.openai.azure.com".toList := by rfl
example : cleanEndpoint ("https://test.cognitive.azure.com/".toList) = "https://test.cognitive.azure.com".toList := by rfl
example : cleanEndpoint ("https://test.openai.azure.com".toList) = "https://test.openai.azure.com".toList := by rfl

/-- azure_service.py lines 166-171: the raw `AzureOpenAI` client built for
the connection test, recorded by its constructor arguments.  Note line 168
passes `settings.AZURE_OPENAI_ENDPOINT`, not the cleaned endpoint. -/
structure AzureOpenAIClient where
  api_version : Str
  azure_endpoint : Str
  api_key : Str

/-- The connection-test client constructed from the settings
(azure_service.py lines 166-171). -/
def connectionTestClient (c : AzureConfig) : AzureOpenAIClient :=
  { api_version := c.AZURE_OPENAI_API_VERSION,
    azure_endpoint := c.AZURE_OPENAI_ENDPOINT,
    api_key := c.AZURE_OPENAI_API_KEY }

/-- azure_service.py lines 201-210: the `AzureChatOpenAI` instance returned
on a successful attempt, recorded by its constructor arguments.  Line 204
passes `settings.AZURE_OPENAI_ENDPOINT`, again not the cleaned endpoint. -/
structure ChatClient where
  azure_deployment : Str
  openai_api_version : Str
  azure_endpoint : Str
  api_key : Str
  model : Str

/-- The client a successful attempt returns (azure_service.py
lines 197-210). -/
def attemptClient (c : AzureConfig) : ChatClient :=
  { azure_deployment := c.AZURE_OPENAI_DEPLOYMENT_NAME,
    openai_api_version := c.AZURE_OPENAI_API_VERSION,
    azure_endpoint := c.AZURE_OPENAI_ENDPOINT,
    api_key := c.AZURE_OPENAI_API_KEY,
    model := "azure/".toList ++ c.AZURE_OPENAI_DEPLOYMENT_NAME }

/-- tenacity `wait_exponential(multiplier, min, max)` (exp_base 2), the
wait computed after attempt number `n` fails:
`max(max(0, min), min(multiplier * 2 ** (n - 1), max))`. -/
def wait_exponential (multiplier mn mx n : Nat) : Nat :=
  max (max 0 mn) (min (multiplier * 2 ^ (n - 1)) mx)

/-- azure_service.py lines 148-150: the wait schedule of the decorator,
`wait_exponential(multiplier=1, min=4, max=10)`. -/
def waitExp (n : Nat) : Nat := wait_exponential 1 4 10 n

/-- Result of the decorated `_create_azure_llm_with_retry`: either a client
after `attemptsUsed` attempts, or tenacity's `RetryError` once
`stop_after_attempt(3)` is reached; `delays` lists the waits slept between
consecutive attempts, in order. -/
inductive RetryOut where
  | ok (client : ChatClient) (attemptsUsed : Nat) (delays : List Nat)
  | retryErr (attemptsUsed : Nat) (delays : List Nat)

/-- The tenacity retry loop around one attempt body (azure_service.py
lines 147-216): attempt `n`; on failure, if attempts remain, sleep
`waitExp n` and try again, else raise `RetryError`.  The attempt body
constructs the test client, runs one test completion (whose success the
environment `testOk` decides), and on success returns `attemptClient c`;
any exception inside is re-raised for retry (lines 211-216). -/
def attemptLoop (c : AzureConfig) (testOk : Nat → Bool) : Nat → Nat → List Nat → RetryOut
  | _, 0, delays => RetryOut.retryErr 0 delays.reverse
  | n, r + 1, delays =>
    if testOk n then RetryOut.ok (attemptClient c) n delays.reverse
    else if r = 0 then RetryOut.retryErr n delays.reverse
    else attemptLoop c testOk (n + 1) r (waitExp n :: delays)

/-- azure_service.py lines 147-216, `_create_azure_llm_with_retry` under
its decorator `@retry(stop=stop_after_attempt(3), wait=wait_exponential(multiplier=1, min=4, max=10))`
(tenacity available).  The `endpoint` parameter is received but never used
by the body: both clients are built from the settings directly. -/
def create_azure_llm_with_retry (c : AzureConfig) (endpoint : Str) (testOk : Nat → Bool) : RetryOut :=
  attemptLoop c testOk 1 3 []

/-- What `get_llm` does, seen from its caller: raise the configuration
`ValueError` (lines 79-82, re-raised at lines 138-140), raise the
connectivity `RuntimeError` (lines 129-136), or return the client. -/
inductive GetLlmResult where
  | valueError
  | runtimeError
  | ok (client : ChatClient)

/-- azure_service.py lines 52-145, `get_llm`, paired with the number of
outbound test completion calls made (one per retry attempt; zero when the
configuration check fails first).  The `OPENAI_API_KEY` environment
clean-up at lines 86-93 is a pure side effect on the process environment
and is not modelled. -/
def get_llm (c : AzureConfig) (testOk : Nat → Bool) : GetLlmResult × Nat :=
  if (missing_vars c).isEmpty then
    match create_azure_llm_with_retry c (cleanEndpoint c.AZURE_OPENAI_ENDPOINT) testOk with
    | RetryOut.ok client n _ => (GetLlmResult.ok client, n)
    | RetryOut.retryErr n _ => (GetLlmResult.runtimeError, n)
  else (GetLlmResult.valueError, 0)

/-- Strictly increasing comparison of consecutive delays. -/
def delaysStrictlyInc : List Nat → Bool
  | a :: b :: rest => (a < b) && delaysStrictlyInc (b :: rest)
  | _ => true

example :
    attemptLoop { AZURE_OPENAI_API_KEY := "k".toList, AZURE_OPENAI_ENDPOINT := "e".toList,
                  AZURE_OPENAI_DEPLOYMENT_NAME := "d".toList, AZURE_OPENAI_API_VERSION := "v".toList }
      (fun _ => false) 1 3 [] = RetryOut.retryErr 3 [4, 4] := by rfl

/-- A fully populated configuration, as mocked in the repository tests. -/
def cfgTest : AzureConfig :=
  { AZURE_OPENAI_API_KEY := "test_key".toList,
    AZURE_OPENAI_ENDPOINT := "https://test.openai.azure.com/".toList,
    AZURE_OPENAI_DEPLOYMENT_NAME := "test_deployment".toList,
    AZURE_OPENAI_API_VERSION := "2024-02-15-preview".toList }

/-- The configuration with an endpoint that carries a path deeper than the
base URL. -/
def cfgDeep : AzureConfig :=
  { AZURE_OPENAI_API_KEY := "test_key".toList,
    AZURE_OPENAI_ENDPOINT := "https://test.openai.azure.com/deployments/test".toList,
    AZURE_OPENAI_DEPLOYMENT_NAME := "test_deployment".toList,
    AZURE_OPENAI_API_VERSION := "2024-02-15-preview".toList }

/-- C1: if the completion call succeeds with a text longer than
`MAX_ANSWER_LENGTH`, then `get_coding_answer` returns a string of length
exactly `MAX_ANSWER_LENGTH` that ends with `"..."` and whose first
`MAX_ANSWER_LENGTH - 3` characters are the first `MAX_ANSWER_LENGTH - 3`
characters of the returned text. -/
theorem get_coding_answer_truncates_long (q : Str) (env : CompletionEnv) (text : Str)
    (hresp : generate_completion (messagesFor q) env = some text)
    (hlen : MAX_ANSWER_LENGTH < text.length) :
    (get_coding_answer q (GenCall.runs env)).length = MAX_ANSWER_LENGTH ∧
    List.IsSuffix ("...".toList) (get_coding_answer q (GenCall.runs env)) ∧
    (get_coding_answer q (GenCall.runs env)).take (MAX_ANSWER_LENGTH - 3)
      = text.take (MAX_ANSWER_LENGTH - 3) := by
  have hlen200 : 200 < text.length := hlen
  have hne : text.isEmpty = false := by
    cases text with
    | nil => simp at hlen200
    | cons a as => rfl
  have hans : get_coding_answer q (GenCall.runs env)
      = text.take (MAX_ANSWER_LENGTH - 3) ++ "...".toList := by
    simp [get_coding_answer, hresp, hne, hlen]
  have htk : (text.take (MAX_ANSWER_LENGTH - 3)).length = MAX_ANSWER_LENGTH - 3 := by
    rw [List.length_take]
    show min 197 text.length = 197
    omega
  refine ⟨?_, ?_, ?_⟩
  · rw [hans, List.length_append, htk]
    rfl
  · rw [hans]
    exact List.suffix_append _ _
  · rw [hans]
    exact List.take_left' htk

/-- Witness for C1 at a concrete 201-character completion text. -/
theorem get_coding_answer_truncates_long_witness :
    (get_coding_answer [] (GenCall.runs (CompletionEnv.raw (CallResult.returns
        (some (List.replicate 201 'A')))))).length = MAX_ANSWER_LENGTH :=
  (get_coding_answer_truncates_long [] (CompletionEnv.raw (CallResult.returns
      (some (List.replicate 201 'A')))) (List.replicate 201 'A') rfl
    (by simp [MAX_ANSWER_LENGTH])).1

/-- C2 counterexample: the completion call can succeed with the empty
string (`generate_completion` returns `some ""`), yet `get_coding_answer`
does not return it unmodified — Python's `if response:` is false for `""`,
so the fallback message is returned instead. -/
theorem get_coding_answer_empty_text_not_identity :
    generate_completion (messagesFor []) (CompletionEnv.raw (CallResult.returns (some []))) = some [] ∧
    get_coding_answer [] (GenCall.runs (CompletionEnv.raw (CallResult.returns (some []))))
      ≠ ([] : Str) :=
  ⟨rfl, by decide⟩

/-- C2 (amended): if the completion call succeeds with a nonempty text of
length at most `MAX_ANSWER_LENGTH`, `get_coding_answer` returns exactly
that text, unmodified. -/
theorem get_coding_answer_short_text_identity (q : Str) (env : CompletionEnv) (text : Str)
    (hresp : generate_completion (messagesFor q) env = some text)
    (hne : text ≠ []) (hle : text.length ≤ MAX_ANSWER_LENGTH) :
    get_coding_answer q (GenCall.runs env) = text := by
  have hne' : text.isEmpty = false := by
    cases text with
    | nil => exact absurd rfl hne
    | cons a as => rfl
  simp [get_coding_answer, hresp, hne', Nat.not_lt.mpr hle]

/-- Witness for the amended C2 at the spec's binary-search scenario. -/
theorem get_coding_answer_short_text_identity_witness :
    get_coding_answer ("What is the time complexity of binary search?".toList)
      (GenCall.runs (CompletionEnv.langchain (CallResult.returns (some ("O(log n)".toList)))
        (CallResult.returns none)))
      = "O(log n)".toList :=
  get_coding_answer_short_text_identity _ _ _ rfl (by decide) (by decide)

/-- C3: for every question and every behaviour of the completion call
(success with any content, `None`, or an exception), `get_coding_answer` is
total and returns a nonempty string. -/
theorem get_coding_answer_nonempty (q : Str) (call : GenCall) :
    get_coding_answer q call ≠ [] := by
  cases call with
  | raises =>
    show connectErrMsg ≠ []
    decide
  | runs env =>
    cases hgen : generate_completion (messagesFor q) env with
    | none =>
      have : get_coding_answer q (GenCall.runs env) = unableMsg := by
        simp [get_coding_answer, hgen]
      rw [this]; decide
    | some response =>
      cases response with
      | nil =>
        have : get_coding_answer q (GenCall.runs env) = unableMsg := by
          simp [get_coding_answer, hgen]
        rw [this]; decide
      | cons a as =>
        by_cases hlt : MAX_ANSWER_LENGTH < (a :: as).length
        · have : get_coding_answer q (GenCall.runs env)
              = (a :: as).take (MAX_ANSWER_LENGTH - 3) ++ "...".toList := by
            simp only [get_coding_answer, hgen]
            rw [if_neg (by simp), if_pos hlt]
          rw [this]
          intro hcontra
          have h3 : ("...".toList : Str) = [] := (List.append_eq_nil.mp hcontra).2
          exact absurd h3 (by decide)
        · have : get_coding_answer q (GenCall.runs env) = a :: as := by
            simp only [get_coding_answer, hgen]
            rw [if_neg (by simp), if_neg hlt]
          rw [this]
          exact List.cons_ne_nil a as

/-- C4: when the `generate_completion` call made by `get_coding_answer`
raises a generic exception (as the repository test mocks it), the caught
exception is converted to exactly the fixed string
`"Error: Unable to connect to AI service."`. -/
theorem get_coding_answer_on_exception (q : Str) :
    get_coding_answer q GenCall.raises = "Error: Unable to connect to AI service.".toList := rfl

/-- C5: with any required configuration value empty, `get_llm` raises the
configuration `ValueError` with zero outbound test calls — before any
network call and with no retry. -/
theorem get_llm_missing_config (c : AzureConfig) (testOk : Nat → Bool)
    (h : missing_vars c ≠ []) :
    get_llm c testOk = (GetLlmResult.valueError, 0) := by
  have hf : (missing_vars c).isEmpty = false := by
    cases hm : missing_vars c with
    | nil => exact absurd hm h
    | cons a as => rfl
  simp [get_llm, hf]

/-- Witness for C5: empty API key, an environment whose every test call
would succeed, and still a configuration error with zero calls. -/
theorem get_llm_missing_config_witness :
    get_llm { AZURE_OPENAI_API_KEY := [],
              AZURE_OPENAI_ENDPOINT := "https://test.openai.azure.com/".toList,
              AZURE_OPENAI_DEPLOYMENT_NAME := "test_deployment".toList,
              AZURE_OPENAI_API_VERSION := "2024-02-15-preview".toList }
      (fun _ => true) = (GetLlmResult.valueError, 0) :=
  get_llm_missing_config _ _ (by decide)

/-- C6 counterexample: with every attempt failing, the retry loop does stop
after 3 attempts, but the delays slept between attempts are `[4, 4]` —
`wait_exponential(multiplier=1, min=4, max=10)` clamps `2 ** (n - 1)` below
at 4 for both gaps, so the delays are not increasing. -/
theorem retry_delays_not_increasing :
    create_azure_llm_with_retry cfgTest (cleanEndpoint cfgTest.AZURE_OPENAI_ENDPOINT)
      (fun _ => false) = RetryOut.retryErr 3 [4, 4] ∧
    delaysStrictlyInc [4, 4] = false :=
  ⟨rfl, rfl⟩

/-- C6 (amended): if the construction-plus-connectivity check fails on
every attempt, `get_llm` fails with the connectivity error only after
exactly 3 attempts, with the delay before each retry given by the clamped
exponential-backoff schedule `wait_exponential(multiplier=1, min=4,
max=10)`, which makes both inter-attempt delays equal to 4 seconds. -/
theorem retry_exhausts_after_three (c : AzureConfig) (testOk : Nat → Bool)
    (hfail : ∀ n, testOk n = false) (hcfg : missing_vars c = []) :
    get_llm c testOk = (GetLlmResult.runtimeError, 3) ∧
    create_azure_llm_with_retry c (cleanEndpoint c.AZURE_OPENAI_ENDPOINT) testOk
      = RetryOut.retryErr 3 [waitExp 1, waitExp 2] ∧
    waitExp 1 = 4 ∧ waitExp 2 = 4 := by
  have hcr : create_azure_llm_with_retry c (cleanEndpoint c.AZURE_OPENAI_ENDPOINT) testOk
      = RetryOut.retryErr 3 [waitExp 1, waitExp 2] := by
    simp [create_azure_llm_with_retry, attemptLoop, hfail]
  have hemp : (missing_vars c).isEmpty = true := by rw [hcfg]; rfl
  refine ⟨?_, hcr, rfl, rfl⟩
  simp [get_llm, hemp, hcr]

/-- Witness for the amended C6 at the fully populated test configuration. -/
theorem retry_exhausts_after_three_witness :
    get_llm cfgTest (fun _ => false) = (GetLlmResult.runtimeError, 3) :=
  (retry_exhausts_after_three cfgTest (fun _ => false) (fun _ => rfl) (by decide)).1

/-- C7: if the construction-plus-connectivity check fails on the first two
attempts and succeeds on the third, `get_llm` succeeds after 3 attempts and
returns the constructed client. -/
theorem retry_recovers_third_attempt (c : AzureConfig) (testOk : Nat → Bool)
    (h1 : testOk 1 = false) (h2 : testOk 2 = false) (h3 : testOk 3 = true)
    (hcfg : missing_vars c = []) :
    get_llm c testOk = (GetLlmResult.ok (attemptClient c), 3) := by
  have hcr : create_azure_llm_with_retry c (cleanEndpoint c.AZURE_OPENAI_ENDPOINT) testOk
      = RetryOut.ok (attemptClient c) 3 [waitExp 1, waitExp 2] := by
    simp [create_azure_llm_with_retry, attemptLoop, h1, h2, h3]
  have hemp : (missing_vars c).isEmpty = true := by rw [hcfg]; rfl
  simp [get_llm, hemp, hcr]

/-- Witness for C7: an environment failing twice then succeeding. -/
theorem retry_recovers_third_attempt_witness :
    get_llm cfgTest (fun n => n == 3) = (GetLlmResult.ok (attemptClient cfgTest), 3) :=
  retry_recovers_third_attempt cfgTest (fun n => n == 3) rfl rfl rfl (by decide)

/-- C8: for the empty question, `get_coding_answer` still builds the full
system-plus-user message list (the user content is the fixed preamble
followed by the empty question) and issues the request; with a mocked
completion response `"N/A"` it returns `"N/A"`. -/
theorem get_coding_answer_empty_question :
    messagesFor [] = [ { role := "system".toList, content := system_prompt },
                       { role := "user".toList, content := question_preamble } ] ∧
    get_coding_answer [] (GenCall.runs (CompletionEnv.raw (CallResult.returns
        (some ("N/A".toList))))) = "N/A".toList := by
  constructor
  · simp [messagesFor]
  · rfl

/-- C9: at the failing input
`ENDPOINT = "https://test.openai.azure.com/deployments/test"`, `get_llm`
extracts the base endpoint `"https://test.openai.azure.com"`, but the
connection-test client and the returned chat client are both constructed
with `settings.AZURE_OPENAI_ENDPOINT` — the unextracted value — so the
extracted base endpoint is never used for the outbound client. -/
theorem endpoint_extraction_unused :
    cleanEndpoint cfgDeep.AZURE_OPENAI_ENDPOINT = "https://test.openai.azure.com".toList ∧
    (connectionTestClient cfgDeep).azure_endpoint = cfgDeep.AZURE_OPENAI_ENDPOINT ∧
    (attemptClient cfgDeep).azure_endpoint = cfgDeep.AZURE_OPENAI_ENDPOINT ∧
    (attemptClient cfgDeep).azure_endpoint ≠ cleanEndpoint cfgDeep.AZURE_OPENAI_ENDPOINT ∧
    get_llm cfgDeep (fun _ => true) = (GetLlmResult.ok (attemptClient cfgDeep), 1) :=
  ⟨rfl, rfl, rfl, by decide, rfl⟩

/-- C10: `generate_completion` absorbs every failure — `get_llm` raising
(including for missing configuration), a falsy client, an exception on both
the langchain invoke and the raw fallback, or an exception on the raw
completion call — into the return value `None`; `get_coding_answer` then
maps `None` to the fixed string
`"Unable to generate answer. Please try again."`, which differs from the
connectivity error string. -/
theorem generate_completion_absorbs (messages : List Message) (q : Str) (env : CompletionEnv)
    (h : generate_completion (messagesFor q) env = none) :
    generate_completion messages CompletionEnv.llmRaises = none ∧
    generate_completion messages CompletionEnv.llmFalsy = none ∧
    generate_completion messages (CompletionEnv.langchain CallResult.raises CallResult.raises) = none ∧
    generate_completion messages (CompletionEnv.raw CallResult.raises) = none ∧
    get_coding_answer q (GenCall.runs env) = unableMsg ∧
    unableMsg ≠ connectErrMsg := by
  refine ⟨rfl, rfl, rfl, rfl, ?_, by decide⟩
  simp [get_coding_answer, h]

/-- Witness for C10: a raw completion call that raises yields the fallback
answer string. -/
theorem generate_completion_absorbs_witness :
    get_coding_answer [] (GenCall.runs (CompletionEnv.raw CallResult.raises)) = unableMsg :=
  (generate_completion_absorbs [] [] (CompletionEnv.raw CallResult.raises) rfl).2.2.2.2.1

end AzureService
